import Mathlib

/-!
Shallow embedding of the convergence-detection and evolutionary-optimization
core of the pr-faq-validator repository
(`scripts/prompt_tuning/convergence_detector.py` and
`scripts/prompt_tuning/evolutionary_tuner.py`).

Modelling conventions:
* Python `float` scores are modelled as `ℚ`; no claim under scrutiny sits on a
  floating-point rounding boundary.
* Python `int` counters and iteration numbers are modelled as `ℤ`.
* Python dictionaries returned by `get_status` are modelled as a structure.
* The human-readable recommendation strings are modelled by an inductive type
  carrying the data interpolated into each message.
* The fallible external collaborators of the tuner (the mutating LLM client
  and the evaluation pipeline) are modelled as `Except`-valued functions of
  the iteration index; Python exceptions become `Except.error`.
-/

set_option autoImplicit false

/-- `ConvergenceConfig` dataclass (`convergence_detector.py`, lines 11-25).
All fields have the source defaults. -/
structure ConvergenceConfig where
  no_improvement_threshold : ℤ := 5
  min_improvement_percent : ℚ := 1/10
  enable_early_stop : Bool := true
  track_plateau_variance : Bool := true
deriving DecidableEq

/-- One entry of `ConvergenceDetector.iteration_history`
(the dict appended in `update`, lines 52-57). -/
structure IterationRecord where
  iteration : ℤ
  score : ℚ
  improved : Bool
  best_score : ℚ
deriving DecidableEq

/-- The mutable state of a `ConvergenceDetector`
(fields assigned in `__init__`, lines 31-37). -/
structure ConvergenceDetector where
  config : ConvergenceConfig
  iteration_history : List IterationRecord := []
  best_score : ℚ := 0
  no_improvement_count : ℤ := 0
  converged : Bool := false
  convergence_iteration : Option ℤ := none
deriving DecidableEq

/-- `ConvergenceDetector.__init__(config)`: the Python constructor accepts an
optional config (defaulting it when absent) and performs no validation. -/
def ConvergenceDetector.init (config : Option ConvergenceConfig) : ConvergenceDetector :=
  { config := config.getD {} }

/-- The Python constructor body cannot raise: viewed as a fallible operation
(the type a construction-time `ConfigurationError` would need), it always
succeeds. -/
def ConvergenceDetector.init_except (config : Option ConvergenceConfig) :
    Except Unit ConvergenceDetector :=
  Except.ok (ConvergenceDetector.init config)

/-- State transition of `ConvergenceDetector.update` (lines 39-78).
The Python method returns `self.get_status()`; here the new state is returned
and `get_status` is applied separately. -/
def ConvergenceDetector.update (s : ConvergenceDetector) (iteration : ℤ) (score : ℚ)
    (improved : Bool) : ConvergenceDetector :=
  -- lines 52-57: append the history record with best_score = max(best, score)
  let hist := s.iteration_history ++
    [{ iteration := iteration, score := score, improved := improved,
       best_score := max s.best_score score }]
  -- lines 59-70: best-score / no-improvement-counter logic
  let s1 : ConvergenceDetector :=
    if s.best_score < score then
      if s.config.min_improvement_percent ≤
          (if 0 < s.best_score then (score - s.best_score) / s.best_score * 100 else 100) then
        { s with iteration_history := hist, best_score := score, no_improvement_count := 0 }
      else
        { s with iteration_history := hist,
                 no_improvement_count := s.no_improvement_count + 1 }
    else
      { s with iteration_history := hist,
               no_improvement_count := s.no_improvement_count + 1 }
  -- lines 72-77: convergence flagging
  if s1.config.no_improvement_threshold ≤ s1.no_improvement_count then
    if s1.converged = false then
      { s1 with converged := true, convergence_iteration := some iteration }
    else s1
  else s1

/-- `ConvergenceDetector.should_stop` (lines 80-85). -/
def ConvergenceDetector.should_stop (s : ConvergenceDetector) : Bool :=
  s.config.enable_early_stop && s.converged

/-- Return value of `_calculate_plateau_stats`. -/
structure PlateauStats where
  variance : ℚ
  avg : ℚ
  min : ℚ
  max : ℚ
deriving DecidableEq

/-- `ConvergenceDetector._calculate_plateau_stats` (lines 103-122).
Python's truthiness test `not self.convergence_iteration` is satisfied both by
`None` and by the integer `0`. -/
def ConvergenceDetector.calculate_plateau_stats (s : ConvergenceDetector) : PlateauStats :=
  match s.convergence_iteration with
  | none => { variance := 0, avg := 0, min := 0, max := 0 }
  | some ci =>
    if s.converged = false ∨ ci = 0 then
      { variance := 0, avg := 0, min := 0, max := 0 }
    else
      let plateau_scores :=
        (s.iteration_history.filter (fun it => ci < it.iteration)).map (fun it => it.score)
      match plateau_scores with
      | [] => { variance := 0, avg := 0, min := 0, max := 0 }
      | h :: t =>
        { variance := t.foldl max h - t.foldl min h,
          avg := (h :: t).sum / ((h :: t).length : ℚ),
          min := t.foldl min h,
          max := t.foldl max h }

/-- `ConvergenceDetector._calculate_wasted_iterations` (lines 124-130),
with the same Python truthiness caveat on `convergence_iteration`. -/
def ConvergenceDetector.calculate_wasted_iterations (s : ConvergenceDetector) : ℤ :=
  match s.convergence_iteration with
  | none => 0
  | some ci =>
    if s.converged = false ∨ ci = 0 then 0
    else (s.iteration_history.length : ℤ) - ci

/-- The dictionary returned by `ConvergenceDetector.get_status` (lines 87-101). -/
structure ConvergenceStatus where
  converged : Bool
  convergence_iteration : Option ℤ
  no_improvement_count : ℤ
  best_score : ℚ
  should_stop : Bool
  plateau_variance : ℚ
  plateau_avg : ℚ
  total_iterations : ℤ
  wasted_iterations : ℤ
deriving DecidableEq

/-- `ConvergenceDetector.get_status` (lines 87-101). -/
def ConvergenceDetector.get_status (s : ConvergenceDetector) : ConvergenceStatus :=
  { converged := s.converged,
    convergence_iteration := s.convergence_iteration,
    no_improvement_count := s.no_improvement_count,
    best_score := s.best_score,
    should_stop := s.should_stop,
    plateau_variance := s.calculate_plateau_stats.variance,
    plateau_avg := s.calculate_plateau_stats.avg,
    total_iterations := (s.iteration_history.length : ℤ),
    wasted_iterations := s.calculate_wasted_iterations }

/-- The three recommendation messages `get_recommendations` can emit, carrying
the data interpolated into the corresponding f-strings. -/
inductive Recommendation where
  | convergenceEarlier (convergence_iteration : Option ℤ) (wasted : ℤ)
  | highPlateauVariance (variance : ℚ)
  | diminishingReturns
deriving DecidableEq

/-- The local variable `improvements` of `get_recommendations` (lines 153-156):
history entries whose caller-supplied `improved` flag is set and whose score is
positive. -/
def ConvergenceDetector.improvements (s : ConvergenceDetector) : List IterationRecord :=
  s.iteration_history.filter (fun it => it.improved && decide (0 < it.score))

/-- `ConvergenceDetector.get_recommendations` (lines 132-168).
Python's `improvements[0]`, `improvements[-2]`, `improvements[-1]` (always
in bounds under the guard `len(improvements) >= 2`) are read through
`head?` / `dropLast.getLast?` / `getLast?`. -/
def ConvergenceDetector.get_recommendations (s : ConvergenceDetector) : List Recommendation :=
  (if s.converged then
    (if 0 < s.calculate_wasted_iterations then
      [Recommendation.convergenceEarlier s.convergence_iteration s.calculate_wasted_iterations]
    else [])
  else []) ++
  (if 5 < s.calculate_plateau_stats.variance then
    [Recommendation.highPlateauVariance s.calculate_plateau_stats.variance]
  else []) ++
  (if 3 ≤ s.iteration_history.length then
    if 2 ≤ s.improvements.length then
      match s.improvements.head?, s.improvements.dropLast.getLast?, s.improvements.getLast? with
      | some i0, some im2, some im1 =>
        if im1.score - im2.best_score < (i0.score - (i0.best_score - i0.score)) / 2 then
          [Recommendation.diminishingReturns]
        else []
      | _, _, _ => []
    else []
  else [])

/-- Fold a list of `(iteration, score, improved)` triples through `update`. -/
def runUpdates (s : ConvergenceDetector) : List (ℤ × ℚ × Bool) → ConvergenceDetector
  | [] => s
  | (it, sc, imp) :: rest => runUpdates (s.update it sc imp) rest

/-- The branch condition of lines 60-64: the score strictly exceeds the best
and the improvement percentage (100 when the best is not positive) meets the
configured minimum. This is exactly the condition under which the source
adopts the score and resets the counter. -/
def significantImprovement (s : ConvergenceDetector) (score : ℚ) : Prop :=
  s.best_score < score ∧
    s.config.min_improvement_percent ≤
      (if 0 < s.best_score then (score - s.best_score) / s.best_score * 100 else 100)

instance (s : ConvergenceDetector) (score : ℚ) : Decidable (significantImprovement s score) :=
  inferInstanceAs (Decidable (And _ _))

/-- The percentage-improvement notion of the spec ("genuine improvement"):
along a run, the delta of each update whose score significantly improves the
pre-call best, in call order. The flag stored with each update does not
influence the detector state (cf. C10), so the deltas depend only on the
(iteration, score) data. -/
def genuineDeltas (s : ConvergenceDetector) : List (ℤ × ℚ × Bool) → List ℚ
  | [] => []
  | (it, sc, imp) :: rest =>
    (if significantImprovement s sc then [sc - s.best_score] else []) ++
      genuineDeltas (s.update it sc imp) rest

/-- Run a detector over `(iteration, score)` pairs, supplying as the
caller-side `improved` flag exactly the detector's own genuine-improvement
predicate at the pre-call state (the internally consistent caller of the
spec's §9 note). -/
def runUpdatesGenuine (s : ConvergenceDetector) : List (ℤ × ℚ) → ConvergenceDetector
  | [] => s
  | (it, sc) :: rest =>
    runUpdatesGenuine (s.update it sc (decide (significantImprovement s sc))) rest

/-- `genuineDeltas` for the internally consistent runs of
`runUpdatesGenuine`. -/
def genuineDeltasP (s : ConvergenceDetector) : List (ℤ × ℚ) → List ℚ
  | [] => []
  | (it, sc) :: rest =>
    (if significantImprovement s sc then [sc - s.best_score] else []) ++
      genuineDeltasP (s.update it sc (decide (significantImprovement s sc))) rest

/-- Partial sums: the scores reached from `b` by successive deltas. -/
def scoresFromDeltas (b : ℚ) : List ℚ → List ℚ
  | [] => []
  | d :: ds => (b + d) :: scoresFromDeltas (b + d) ds

/-- Invariant of the states reached by internally consistent runs: the best
score is non-negative; every record the code counts as an improvement has its
recorded running best equal to its own score; and the current best equals the
last such record's score (or 0 when there is none). -/
def DetInv (s : ConvergenceDetector) : Prop :=
  0 ≤ s.best_score ∧
  (∀ r ∈ s.improvements, r.best_score = r.score) ∧
  (match s.improvements.getLast? with
   | none => s.best_score = 0
   | some r => s.best_score = r.score)

/-!
Embedding of the optimization loop `EvolutionaryTuner.run_evolution`
(`evolutionary_tuner.py`, lines 54-159). Prompt text plays no role in the
loop's control flow (each iteration scores the candidate freshly produced by
the mutator exactly once), so the Mutator is modelled as a fallible effect of
the iteration index and the Scorer as the fallible aggregate `overall` score
of the candidate evaluated at that iteration, with iteration 0 the baseline
evaluation.
-/

/-- One entry of the tuner's own `iteration_history` (lines 122-124). -/
structure TunerRecord where
  iteration : ℤ
  score : ℚ
  best_score : ℚ
  improved : Bool
deriving DecidableEq

/-- The loop-relevant mutable state of an `EvolutionaryTuner`
(`best_score`, `iteration_history`, `convergence_detector`; lines 37-52). -/
structure TunerState where
  best_score : ℚ
  iteration_history : List TunerRecord
  detector : Option ConvergenceDetector
deriving DecidableEq

/-- The `final_results` dictionary assembled at loop exit (lines 144-155),
restricted to the score- and convergence-relevant fields (project name,
timestamp and prompt text are plumbing outside the claims). `convergence` is
`none` when the tuner was built without a detector (Python: `{}`). -/
structure OptimizationResult where
  max_iterations : ℕ
  baseline_score : ℚ
  final_score : ℚ
  improvement : ℚ
  iteration_history : List TunerRecord
  convergence : Option ConvergenceStatus
  recommendations : List Recommendation
deriving DecidableEq

/-- The detector the tuner constructs when convergence detection is enabled
(lines 42-52). -/
def EvolutionaryTuner.default_detector : ConvergenceDetector :=
  ConvergenceDetector.init (some
    { no_improvement_threshold := 5, min_improvement_percent := 1/10,
      enable_early_stop := true, track_plateau_variance := true })

/-- The `for iteration in range(1, max_iterations + 1)` loop body of
`run_evolution` (lines 86-135). `i` is the current iteration index, the `ℕ`
argument the remaining budget. A collaborator failure (Python exception)
aborts the loop immediately: the pair returned is the tuner state as left
behind by the unwinding (no record for the failing iteration) together with
the propagated error. `should_stop` causes the `break` of line 135. -/
def runLoop {ε : Type} (mutate : ℤ → Except ε Unit) (score : ℤ → Except ε ℚ) :
    TunerState → ℤ → ℕ → TunerState × Option ε
  | s, _, 0 => (s, none)
  | s, i, n + 1 =>
    match mutate i with
    | Except.error e => (s, some e)
    | Except.ok _ =>
      match score i with
      | Except.error e => (s, some e)
      | Except.ok current_score =>
        -- lines 109-124: keep/discard, then record the iteration
        let improved := s.best_score < current_score
        let s1 : TunerState :=
          if improved then { s with best_score := current_score } else s
        let s2 : TunerState :=
          { s1 with iteration_history := s1.iteration_history ++
              [{ iteration := i, score := current_score,
                 best_score := s1.best_score, improved := improved }] }
        -- lines 126-135: convergence update and early stop
        match s2.detector with
        | none => runLoop mutate score s2 (i + 1) n
        | some det =>
          let det1 := det.update i current_score improved
          let s3 : TunerState := { s2 with detector := some det1 }
          if det1.should_stop then (s3, none)
          else runLoop mutate score s3 (i + 1) n

/-- `EvolutionaryTuner.run_evolution` (lines 54-159): baseline evaluation at
iteration 0, the evolutionary loop, then assembly of the final results.
Returns the final tuner state together with either the propagated collaborator
error or the assembled `OptimizationResult`. -/
def run_evolution {ε : Type} (mutate : ℤ → Except ε Unit) (score : ℤ → Except ε ℚ)
    (detector : Option ConvergenceDetector) (max_iterations : ℕ) :
    TunerState × Except ε OptimizationResult :=
  match score 0 with
  | Except.error e =>
    ({ best_score := 0, iteration_history := [], detector := detector }, Except.error e)
  | Except.ok baseline =>
    let s0 : TunerState :=
      { best_score := baseline, iteration_history := [], detector := detector }
    match runLoop mutate score s0 1 max_iterations with
    | (s, some e) => (s, Except.error e)
    | (s, none) =>
      (s, Except.ok
        { max_iterations := max_iterations,
          baseline_score := baseline,
          final_score := s.best_score,
          improvement := s.best_score - baseline,
          iteration_history := s.iteration_history,
          convergence := s.detector.map ConvergenceDetector.get_status,
          recommendations :=
            (s.detector.map ConvergenceDetector.get_recommendations).getD [] })

/-!
Characterization lemmas for `ConvergenceDetector.update`, read off the
branches of the source method. All claim proofs go through these.
-/

theorem update_config (s : ConvergenceDetector) (it : ℤ) (sc : ℚ) (imp : Bool) :
    (s.update it sc imp).config = s.config := by
  simp only [ConvergenceDetector.update]
  split_ifs <;> rfl

theorem update_iteration_history (s : ConvergenceDetector) (it : ℤ) (sc : ℚ) (imp : Bool) :
    (s.update it sc imp).iteration_history = s.iteration_history ++
      [{ iteration := it, score := sc, improved := imp,
         best_score := max s.best_score sc }] := by
  simp only [ConvergenceDetector.update]
  split_ifs <;> rfl

theorem update_no_improvement_count (s : ConvergenceDetector) (it : ℤ) (sc : ℚ) (imp : Bool) :
    (s.update it sc imp).no_improvement_count =
      if significantImprovement s sc then 0 else s.no_improvement_count + 1 := by
  simp only [ConvergenceDetector.update, significantImprovement]
  by_cases h1 : s.best_score < sc <;>
    by_cases h2 : s.config.min_improvement_percent ≤
      (if 0 < s.best_score then (sc - s.best_score) / s.best_score * 100 else 100) <;>
    simp only [h1, h2, if_pos, if_neg, if_true, if_false, true_and, false_and,
      not_false_iff, and_true, and_false] <;>
    split_ifs <;> simp_all

theorem update_best_score (s : ConvergenceDetector) (it : ℤ) (sc : ℚ) (imp : Bool) :
    (s.update it sc imp).best_score =
      if significantImprovement s sc then sc else s.best_score := by
  simp only [ConvergenceDetector.update, significantImprovement]
  by_cases h1 : s.best_score < sc <;>
    by_cases h2 : s.config.min_improvement_percent ≤
      (if 0 < s.best_score then (sc - s.best_score) / s.best_score * 100 else 100) <;>
    simp only [h1, h2, if_pos, if_neg, if_true, if_false, true_and, false_and,
      not_false_iff, and_true, and_false] <;>
    split_ifs <;> simp_all

theorem update_converged (s : ConvergenceDetector) (it : ℤ) (sc : ℚ) (imp : Bool) :
    (s.update it sc imp).converged =
      (s.converged || decide (s.config.no_improvement_threshold ≤
        (s.update it sc imp).no_improvement_count)) := by
  rw [update_no_improvement_count]
  simp only [ConvergenceDetector.update, significantImprovement]
  by_cases h1 : s.best_score < sc <;>
    by_cases h2 : s.config.min_improvement_percent ≤
      (if 0 < s.best_score then (sc - s.best_score) / s.best_score * 100 else 100) <;>
    simp only [h1, h2, if_pos, if_neg, if_true, if_false, true_and, false_and,
      not_false_iff, and_true, and_false] <;>
    split_ifs <;> simp_all

theorem update_convergence_iteration (s : ConvergenceDetector) (it : ℤ) (sc : ℚ) (imp : Bool) :
    (s.update it sc imp).convergence_iteration =
      if s.converged = false ∧ s.config.no_improvement_threshold ≤
          (s.update it sc imp).no_improvement_count
      then some it else s.convergence_iteration := by
  rw [update_no_improvement_count]
  simp only [ConvergenceDetector.update, significantImprovement]
  by_cases h1 : s.best_score < sc <;>
    by_cases h2 : s.config.min_improvement_percent ≤
      (if 0 < s.best_score then (sc - s.best_score) / s.best_score * 100 else 100) <;>
    simp only [h1, h2, if_pos, if_neg, if_true, if_false, true_and, false_and,
      not_false_iff, and_true, and_false] <;>
    split_ifs <;> simp_all

/-!
Claim theorems.
-/

/-- C2: For every sequence of update calls on a ConvergenceDetector,
`best_score` is monotonically non-decreasing: after each update call,
`best_score` is greater than or equal to its value before that call. -/
theorem C2_best_score_monotone (s : ConvergenceDetector) (it : ℤ) (sc : ℚ) (imp : Bool) :
    s.best_score ≤ (s.update it sc imp).best_score := by
  rw [update_best_score]
  split_ifs with h
  · exact le_of_lt h.1
  · exact le_refl _

/-- C1: after `update(iteration, score, improved)` the no-improvement counter
is 0 when `score` exceeds the pre-call best and the percentage improvement
over that best (taken as 100% when the pre-call best is 0) is at least
`min_improvement_percent`; in every other case it equals the pre-call value
plus 1. Stated for the states the detector actually reaches, in which
`best_score` is non-negative. -/
theorem C1_counter_reset_iff_significant (s : ConvergenceDetector)
    (hb : 0 ≤ s.best_score) (it : ℤ) (sc : ℚ) (imp : Bool) :
    (s.best_score < sc ∧
        s.config.min_improvement_percent ≤
          (if s.best_score = 0 then 100 else (sc - s.best_score) / s.best_score * 100) →
      (s.update it sc imp).no_improvement_count = 0) ∧
    (¬ (s.best_score < sc ∧
        s.config.min_improvement_percent ≤
          (if s.best_score = 0 then 100 else (sc - s.best_score) / s.best_score * 100)) →
      (s.update it sc imp).no_improvement_count = s.no_improvement_count + 1) := by
  have hiff : significantImprovement s sc ↔
      (s.best_score < sc ∧
        s.config.min_improvement_percent ≤
          (if s.best_score = 0 then 100 else (sc - s.best_score) / s.best_score * 100)) := by
    unfold significantImprovement
    rcases hb.eq_or_lt with h0 | h0
    · rw [if_neg (by rw [← h0]; exact lt_irrefl 0), if_pos h0.symm]
    · rw [if_pos h0, if_neg (ne_of_gt h0)]
  rw [update_no_improvement_count]
  constructor
  · intro h
    rw [if_pos (hiff.mpr h)]
  · intro h
    rw [if_neg (fun hs => h (hiff.mp hs))]

/-- C1 witness: with pre-call best 100, `min_improvement_percent = 0.1` and
pre-call counter 3, a score of 100.05 increments the counter to 4 and a score
of 100.2 resets it to 0. -/
theorem C1_counter_reset_iff_significant_witness :
    ((ConvergenceDetector.update
        { config := {}, iteration_history := [], best_score := 100,
          no_improvement_count := 3, converged := false, convergence_iteration := none }
        7 (2001/20) false).no_improvement_count = 3 + 1) ∧
    ((ConvergenceDetector.update
        { config := {}, iteration_history := [], best_score := 100,
          no_improvement_count := 3, converged := false, convergence_iteration := none }
        7 (501/5) false).no_improvement_count = 0) := by
  constructor
  · exact (C1_counter_reset_iff_significant _ (by norm_num) 7 (2001/20) false).2 (by norm_num)
  · exact (C1_counter_reset_iff_significant _ (by norm_num) 7 (501/5) false).1 (by norm_num)


/-- C3: with `no_improvement_threshold = 5`, for the run whose baseline update
(iteration 0) raises the best score to 10 and whose 6-iteration sequence then
raises it to 20 at iteration 1 (a 100% gain over the best of 10) and scores
exactly 20 at iterations 2 through 6: the tracker is not converged before
iteration 6, flags convergence at iteration 6, and reports
`wasted_iterations = 1` and `plateau_variance = 0`. -/
theorem C3_six_iteration_plateau_scenario :
    (runUpdates (ConvergenceDetector.init none)
        [(0, 10, true), (1, 20, true), (2, 20, false), (3, 20, false),
         (4, 20, false), (5, 20, false)]).converged = false ∧
    (runUpdates (ConvergenceDetector.init none)
        [(0, 10, true), (1, 20, true), (2, 20, false), (3, 20, false),
         (4, 20, false), (5, 20, false), (6, 20, false)]).converged = true ∧
    (runUpdates (ConvergenceDetector.init none)
        [(0, 10, true), (1, 20, true), (2, 20, false), (3, 20, false),
         (4, 20, false), (5, 20, false), (6, 20, false)]).convergence_iteration = some 6 ∧
    (runUpdates (ConvergenceDetector.init none)
        [(0, 10, true), (1, 20, true), (2, 20, false), (3, 20, false),
         (4, 20, false), (5, 20, false), (6, 20, false)]).get_status.wasted_iterations = 1 ∧
    (runUpdates (ConvergenceDetector.init none)
        [(0, 10, true), (1, 20, true), (2, 20, false), (3, 20, false),
         (4, 20, false), (5, 20, false), (6, 20, false)]).get_status.plateau_variance = 0 := by
  norm_num [runUpdates, ConvergenceDetector.update, ConvergenceDetector.init,
    ConvergenceDetector.get_status, ConvergenceDetector.calculate_wasted_iterations,
    ConvergenceDetector.calculate_plateau_stats, ConvergenceDetector.should_stop]

set_option maxHeartbeats 1000000 in
/-- C4: running the optimization loop with `max_iterations = 20`, a baseline
(iteration 0) score of 65 and every mutated candidate scoring exactly 70,
under the tuner's default convergence configuration: the loop terminates after
iteration 6 (the history holds 6 records, not 20) and the returned result has
`final_score = 70` and `improvement = 5`. -/
theorem C4_early_stop_scenario :
    (run_evolution (ε := Unit) (fun _ => Except.ok ())
        (fun i => Except.ok (if i = 0 then 65 else 70))
        (some EvolutionaryTuner.default_detector) 20).1.iteration_history.length = 6 ∧
    ((run_evolution (ε := Unit) (fun _ => Except.ok ())
        (fun i => Except.ok (if i = 0 then 65 else 70))
        (some EvolutionaryTuner.default_detector) 20).2.map
      (fun r => (r.final_score, r.improvement))).toOption = some ((70 : ℚ), (5 : ℚ)) := by
  constructor <;>
    (simp only [run_evolution];
     try rw [show (20:ℕ) = 19+1 from rfl, runLoop];
     try norm_num [ConvergenceDetector.update, ConvergenceDetector.init,
       ConvergenceDetector.should_stop, EvolutionaryTuner.default_detector];
     try rw [show (19:ℕ) = 18+1 from rfl, runLoop];
     try norm_num [ConvergenceDetector.update, ConvergenceDetector.init,
       ConvergenceDetector.should_stop, EvolutionaryTuner.default_detector];
     try rw [show (18:ℕ) = 17+1 from rfl, runLoop];
     try norm_num [ConvergenceDetector.update, ConvergenceDetector.init,
       ConvergenceDetector.should_stop, EvolutionaryTuner.default_detector];
     try rw [show (17:ℕ) = 16+1 from rfl, runLoop];
     try norm_num [ConvergenceDetector.update, ConvergenceDetector.init,
       ConvergenceDetector.should_stop, EvolutionaryTuner.default_detector];
     try rw [show (16:ℕ) = 15+1 from rfl, runLoop];
     try norm_num [ConvergenceDetector.update, ConvergenceDetector.init,
       ConvergenceDetector.should_stop, EvolutionaryTuner.default_detector];
     try rw [show (15:ℕ) = 14+1 from rfl, runLoop];
     try norm_num [ConvergenceDetector.update, ConvergenceDetector.init,
       ConvergenceDetector.should_stop, EvolutionaryTuner.default_detector];
     try norm_num [Except.map, Except.toOption])

/-- Helper: along `runLoop`, the tuner's `best_score` never decreases,
whatever the collaborators do. -/
theorem runLoop_fst_best_mono {ε : Type} (m : ℤ → Except ε Unit) (sc : ℤ → Except ε ℚ) :
    ∀ (n : ℕ) (s : TunerState) (i : ℤ),
    s.best_score ≤ (runLoop m sc s i n).1.best_score := by
  intro n
  induction n with
  | zero => intro s i; exact le_refl _
  | succ n ih =>
    intro s i
    rw [runLoop]
    cases m i with
    | error e => exact le_refl _
    | ok u =>
      cases sc i with
      | error e => exact le_refl _
      | ok cur =>
        dsimp only
        by_cases himp : s.best_score < cur
        · simp only [if_pos himp]
          cases hdet : s.detector with
          | none =>
            simp only [hdet]
            exact le_trans (le_of_lt himp) (ih _ _)
          | some det =>
            simp only [hdet]
            by_cases hstop :
                ((det.update i cur (decide (s.best_score < cur))).should_stop = true)
            · simp only [if_pos hstop]
              exact le_of_lt himp
            · simp only [if_neg hstop]
              exact le_trans (le_of_lt himp) (ih _ _)
        · simp only [if_neg himp]
          cases hdet : s.detector with
          | none =>
            simp only [hdet]
            exact ih _ _
          | some det =>
            simp only [hdet]
            by_cases hstop :
                ((det.update i cur (decide (s.best_score < cur))).should_stop = true)
            · simp only [if_pos hstop]
              exact le_refl _
            · simp only [if_neg hstop]
              exact ih _ _

/-- C5: for every completed run of the optimization loop — whatever the
collaborators return for iterations 1 through `max_iterations` — the reported
`final_score` is at least `baseline_score`: a candidate is adopted as best
only when its score strictly exceeds the best-ever score, so the externally
visible best never regresses below the iteration-0 baseline. -/
theorem C5_final_score_ge_baseline {ε : Type} (m : ℤ → Except ε Unit)
    (score : ℤ → Except ε ℚ) (det : Option ConvergenceDetector) (max_iterations : ℕ)
    (s : TunerState) (res : OptimizationResult)
    (h : run_evolution m score det max_iterations = (s, Except.ok res)) :
    res.baseline_score ≤ res.final_score := by
  unfold run_evolution at h
  cases hb : score 0 with
  | error e => rw [hb] at h; simp at h
  | ok b =>
    rw [hb] at h
    dsimp only at h
    rcases hr : runLoop m score
        { best_score := b, iteration_history := [], detector := det } 1 max_iterations
      with ⟨s1, opt⟩
    rw [hr] at h
    cases opt with
    | some e => simp at h
    | none =>
      have hres : res.baseline_score = b ∧ res.final_score = s1.best_score := by
        have := congrArg Prod.snd h
        simp only at this
        cases this
        exact ⟨rfl, rfl⟩
      rw [hres.1, hres.2]
      have hmono := runLoop_fst_best_mono m score max_iterations
        { best_score := b, iteration_history := [], detector := det } 1
      rw [hr] at hmono
      exact hmono

/-- C5 witness: a run with baseline 65 and zero loop iterations completes with
`final_score = baseline_score = 65`. -/
theorem C5_final_score_ge_baseline_witness :
    (OptimizationResult.baseline_score
        { max_iterations := 0, baseline_score := 65, final_score := 65, improvement := 0,
          iteration_history := [], convergence := none, recommendations := [] } : ℚ) ≤
      OptimizationResult.final_score
        { max_iterations := 0, baseline_score := 65, final_score := 65, improvement := 0,
          iteration_history := [], convergence := none, recommendations := [] } :=
  C5_final_score_ge_baseline (ε := Unit) (fun _ => Except.ok ()) (fun _ => Except.ok 65)
    none 0 { best_score := 65, iteration_history := [], detector := none }
    { max_iterations := 0, baseline_score := 65, final_score := 65, improvement := 0,
      iteration_history := [], convergence := none, recommendations := [] }
    (by norm_num [run_evolution, runLoop])

/-- C6 counterexample: with the scorer failing at iteration 2 of an otherwise
normal run, `run_evolution` ends in the propagated error — no
`OptimizationResult` (truncated or otherwise) is produced for the caller. -/
theorem C6_counterexample :
    (run_evolution (ε := Unit) (fun _ => Except.ok ())
        (fun i => if i = 0 then Except.ok 65 else if i = 1 then Except.ok 70
          else Except.error ())
        (some EvolutionaryTuner.default_detector) 20).2 = Except.error () := by
  simp only [run_evolution]
  norm_num
  rw [show (20:ℕ) = 19+1 from rfl, runLoop]
  norm_num [ConvergenceDetector.update, ConvergenceDetector.init,
    ConvergenceDetector.should_stop, EvolutionaryTuner.default_detector]
  rw [show (19:ℕ) = 18+1 from rfl, runLoop]
  norm_num [ConvergenceDetector.update, ConvergenceDetector.init,
    ConvergenceDetector.should_stop, EvolutionaryTuner.default_detector]

/-- C6 amended: a Mutator or Scorer failure at some iteration aborts the run
at once: the error is propagated to the caller, the failing iteration is not
recorded (the tuner state — history, best score, detector counters — is left
exactly as after the last good iteration, so the failure is not treated as a
non-improvement and no score is coerced to 0), and no OptimizationResult is
assembled: the run's outcome is the error alone. -/
theorem C6_error_propagation {ε : Type} (m : ℤ → Except ε Unit) (sc : ℤ → Except ε ℚ) :
    (∀ (s : TunerState) (i : ℤ) (n : ℕ) (e : ε), m i = Except.error e →
      runLoop m sc s i (n + 1) = (s, some e)) ∧
    (∀ (s : TunerState) (i : ℤ) (n : ℕ) (u : Unit) (e : ε),
      m i = Except.ok u → sc i = Except.error e →
      runLoop m sc s i (n + 1) = (s, some e)) ∧
    (∀ (det : Option ConvergenceDetector) (mx : ℕ) (b : ℚ) (e : ε) (s : TunerState),
      sc 0 = Except.ok b →
      runLoop m sc { best_score := b, iteration_history := [], detector := det } 1 mx =
        (s, some e) →
      run_evolution m sc det mx = (s, Except.error e)) := by
  refine ⟨fun s i n e hm => ?_, fun s i n u e hm hsc => ?_, fun det mx b e s hb hr => ?_⟩
  · rw [runLoop, hm]
  · rw [runLoop, hm, hsc]
  · unfold run_evolution
    rw [hb]
    dsimp only
    rw [hr]

/-- C6 witness: concrete instances of the three parts of
`C6_error_propagation` — a mutator failure, a scorer failure, and a full run
whose scorer fails at iteration 1. -/
theorem C6_error_propagation_witness :
    runLoop (ε := Unit) (fun _ => Except.error ()) (fun _ => Except.ok 0)
      { best_score := 0, iteration_history := [], detector := none } 1 (0 + 1) =
      ({ best_score := 0, iteration_history := [], detector := none }, some ()) ∧
    runLoop (ε := Unit) (fun _ => Except.ok ())
      (fun i => if i = 0 then Except.ok 65 else Except.error ())
      { best_score := 65, iteration_history := [],
        detector := some EvolutionaryTuner.default_detector } 1 (19 + 1) =
      ({ best_score := 65, iteration_history := [],
         detector := some EvolutionaryTuner.default_detector }, some ()) ∧
    run_evolution (ε := Unit) (fun _ => Except.ok ())
      (fun i => if i = 0 then Except.ok 65 else Except.error ())
      (some EvolutionaryTuner.default_detector) 20 =
      ({ best_score := 65, iteration_history := [],
         detector := some EvolutionaryTuner.default_detector }, Except.error ()) := by
  refine ⟨(C6_error_propagation _ _).1 _ 1 0 () rfl,
          (C6_error_propagation _ _).2.1 _ 1 19 () () rfl (by norm_num),
          (C6_error_propagation _ _).2.2 (some EvolutionaryTuner.default_detector)
            20 65 () _ rfl ?_⟩
  rw [show (20:ℕ) = 19 + 1 from rfl]
  exact (C6_error_propagation _ _).2.1 _ 1 19 () () rfl (by norm_num)

/-- C7 counterexample: a ConvergenceConfig with the non-positive threshold 0
is accepted at construction time — the constructor succeeds and the resulting
detector is then used, flagging convergence on its very first update. No
configuration error is raised when the object is built. -/
theorem C7_counterexample :
    (ConvergenceDetector.init_except (some
        { no_improvement_threshold := 0, min_improvement_percent := 1/10,
          enable_early_stop := true, track_plateau_variance := true })).isOk = true ∧
    ((ConvergenceDetector.init (some
        { no_improvement_threshold := 0, min_improvement_percent := 1/10,
          enable_early_stop := true, track_plateau_variance := true })).update
      1 5 true).converged = true := by
  constructor
  · rfl
  · norm_num [ConvergenceDetector.init, ConvergenceDetector.update]

/-- C7 amended: construction performs no validation at all — every
configuration, including one with a non-positive `no_improvement_threshold`,
is accepted (the constructor never fails), and a detector built with a
non-positive threshold reports convergence already on its first use. -/
theorem C7_no_construction_validation (cfg : ConvergenceConfig)
    (hth : cfg.no_improvement_threshold ≤ 0) :
    ConvergenceDetector.init_except (some cfg) =
      Except.ok (ConvergenceDetector.init (some cfg)) ∧
    (∀ (it : ℤ) (sc : ℚ) (imp : Bool),
      ((ConvergenceDetector.init (some cfg)).update it sc imp).converged = true) := by
  refine ⟨rfl, fun it sc imp => ?_⟩
  rw [update_converged, update_no_improvement_count]
  have hcfg : (ConvergenceDetector.init (some cfg)).config = cfg := rfl
  have hcnt : (ConvergenceDetector.init (some cfg)).no_improvement_count = 0 := rfl
  have hcv : (ConvergenceDetector.init (some cfg)).converged = false := rfl
  rw [hcfg, hcnt, hcv]
  split_ifs <;> simp <;> omega

/-- C7 witness: the amended statement at the concrete invalid configuration
with threshold 0: construction succeeds and the first update converges. -/
theorem C7_no_construction_validation_witness :
    ConvergenceDetector.init_except (some
        { no_improvement_threshold := 0, min_improvement_percent := 1/10,
          enable_early_stop := true, track_plateau_variance := true }) =
      Except.ok (ConvergenceDetector.init (some
        { no_improvement_threshold := 0, min_improvement_percent := 1/10,
          enable_early_stop := true, track_plateau_variance := true })) ∧
    ((ConvergenceDetector.init (some
        { no_improvement_threshold := 0, min_improvement_percent := 1/10,
          enable_early_stop := true, track_plateau_variance := true })).update
      3 42 false).converged = true := by
  refine ⟨(C7_no_construction_validation _ (by norm_num)).1,
          (C7_no_construction_validation _ (by norm_num)).2 3 42 false⟩

/-- C8: once `converged` is true it remains true for every later update
(whatever the score), and `convergence_iteration` is never overwritten; from
a non-converged state the flag turns true exactly when the post-update
counter reaches the threshold, and on that update the convergence iteration
is recorded as the current iteration number. -/
theorem C8_converged_terminal (s : ConvergenceDetector) (it : ℤ) (sc : ℚ) (imp : Bool) :
    (s.converged = true →
      (s.update it sc imp).converged = true ∧
      (s.update it sc imp).convergence_iteration = s.convergence_iteration) ∧
    (s.converged = false →
      ((s.update it sc imp).converged = true ↔
        s.config.no_improvement_threshold ≤ (s.update it sc imp).no_improvement_count) ∧
      (s.config.no_improvement_threshold ≤ (s.update it sc imp).no_improvement_count →
        (s.update it sc imp).convergence_iteration = some it)) := by
  constructor
  · intro h
    constructor
    · rw [update_converged, h]
      simp
    · rw [update_convergence_iteration, if_neg]
      simp [h]
  · intro h
    constructor
    · rw [update_converged, h]
      simp
    · intro hth
      rw [update_convergence_iteration, if_pos ⟨h, hth⟩]

/-- C8 witness: a converged detector stays converged with its convergence
iteration intact after a dramatically better score, and a detector one step
short of the threshold converges at the triggering iteration. -/
theorem C8_converged_terminal_witness :
    ((ConvergenceDetector.update
        { config := {}, iteration_history := [], best_score := 20,
          no_improvement_count := 5, converged := true, convergence_iteration := some 3 }
        9 1000 true).converged = true ∧
      (ConvergenceDetector.update
        { config := {}, iteration_history := [], best_score := 20,
          no_improvement_count := 5, converged := true, convergence_iteration := some 3 }
        9 1000 true).convergence_iteration = some 3) ∧
    (ConvergenceDetector.update
      { config := {}, iteration_history := [], best_score := 20,
        no_improvement_count := 4, converged := false, convergence_iteration := none }
      2 0 false).convergence_iteration = some 2 := by
  refine ⟨(C8_converged_terminal _ 9 1000 true).1 rfl, ?_⟩
  refine ((C8_converged_terminal _ 2 0 false).2 rfl).2 ?_
  rw [update_no_improvement_count]
  norm_num [significantImprovement]

/-- Helper: the plateau statistics depend only on the converged flag, the
convergence iteration, and the (iteration, score) content of the history. -/
theorem calculate_plateau_stats_congr (a b : ConvergenceDetector)
    (h1 : a.converged = b.converged)
    (h2 : a.convergence_iteration = b.convergence_iteration)
    (h3 : ∀ ci : ℤ,
      (a.iteration_history.filter (fun r => ci < r.iteration)).map (fun r => r.score) =
      (b.iteration_history.filter (fun r => ci < r.iteration)).map (fun r => r.score)) :
    a.calculate_plateau_stats = b.calculate_plateau_stats := by
  unfold ConvergenceDetector.calculate_plateau_stats
  rw [h1, h2]
  cases b.convergence_iteration with
  | none => rfl
  | some ci =>
    simp only [h3]

/-- Helper: the wasted-iterations figure depends only on the converged flag,
the convergence iteration, and the history length. -/
theorem calculate_wasted_iterations_congr (a b : ConvergenceDetector)
    (h1 : a.converged = b.converged)
    (h2 : a.convergence_iteration = b.convergence_iteration)
    (h3 : a.iteration_history.length = b.iteration_history.length) :
    a.calculate_wasted_iterations = b.calculate_wasted_iterations := by
  unfold ConvergenceDetector.calculate_wasted_iterations
  rw [h1, h2, h3]

/-- C10: from identical states, `update(it, sc, True)` and
`update(it, sc, False)` produce identical `best_score`,
`no_improvement_count`, `converged` flag, `convergence_iteration` and
identical returned status dictionaries; the caller-supplied flag lands only
in the `improved` field of the appended history record. -/
theorem C10_improved_flag_immaterial (s : ConvergenceDetector) (it : ℤ) (sc : ℚ) :
    (s.update it sc true).best_score = (s.update it sc false).best_score ∧
    (s.update it sc true).no_improvement_count =
      (s.update it sc false).no_improvement_count ∧
    (s.update it sc true).converged = (s.update it sc false).converged ∧
    (s.update it sc true).convergence_iteration =
      (s.update it sc false).convergence_iteration ∧
    (s.update it sc true).get_status = (s.update it sc false).get_status ∧
    (s.update it sc true).iteration_history.map (fun r => (r.iteration, r.score, r.best_score)) =
      (s.update it sc false).iteration_history.map
        (fun r => (r.iteration, r.score, r.best_score)) := by
  have hbest : (s.update it sc true).best_score = (s.update it sc false).best_score := by
    rw [update_best_score, update_best_score]
  have hcount : (s.update it sc true).no_improvement_count =
      (s.update it sc false).no_improvement_count := by
    rw [update_no_improvement_count, update_no_improvement_count]
  have hconv : (s.update it sc true).converged = (s.update it sc false).converged := by
    rw [update_converged, update_converged, hcount]
  have hci : (s.update it sc true).convergence_iteration =
      (s.update it sc false).convergence_iteration := by
    rw [update_convergence_iteration, update_convergence_iteration, hcount]
  have hcfg : (s.update it sc true).config = (s.update it sc false).config := by
    rw [update_config, update_config]
  have hlen : (s.update it sc true).iteration_history.length =
      (s.update it sc false).iteration_history.length := by
    rw [update_iteration_history, update_iteration_history]
    simp
  have hps : ∀ ci : ℤ,
      ((s.update it sc true).iteration_history.filter (fun r => ci < r.iteration)).map
        (fun r => r.score) =
      ((s.update it sc false).iteration_history.filter (fun r => ci < r.iteration)).map
        (fun r => r.score) := by
    intro ci
    rw [update_iteration_history, update_iteration_history]
    simp only [List.filter_append, List.map_append]
    congr 1
    cases h : decide (ci < it) <;> simp [List.filter_singleton, h]
  have hplateau : (s.update it sc true).calculate_plateau_stats =
      (s.update it sc false).calculate_plateau_stats :=
    calculate_plateau_stats_congr _ _ hconv hci hps
  have hwaste : (s.update it sc true).calculate_wasted_iterations =
      (s.update it sc false).calculate_wasted_iterations :=
    calculate_wasted_iterations_congr _ _ hconv hci hlen
  refine ⟨hbest, hcount, hconv, hci, ?_, ?_⟩
  · unfold ConvergenceDetector.get_status ConvergenceDetector.should_stop
    rw [hbest, hcount, hconv, hci, hcfg, hlen, hplateau, hwaste]
  · rw [update_iteration_history, update_iteration_history]
    simp

/-- C9 counterexample: the run (1, 10, improved=False), (2, 100, True),
(3, 140, True) has three iterations and three genuine improvements with
deltas 10, 90, 40; the most recent genuine delta 40 is NOT less than half the
first genuine delta 10, yet `get_recommendations` includes the
diminishing-returns recommendation (the code reads the flagged records and
uses the first one's raw score in place of its delta). -/
theorem C9_counterexample :
    genuineDeltas (ConvergenceDetector.init none)
        [(1, 10, false), (2, 100, true), (3, 140, true)] = [10, 90, 40] ∧
    (runUpdates (ConvergenceDetector.init none)
        [(1, 10, false), (2, 100, true), (3, 140, true)]).iteration_history.length = 3 ∧
    ¬ ((40 : ℚ) < 10 / 2) ∧
    Recommendation.diminishingReturns ∈
      (runUpdates (ConvergenceDetector.init none)
        [(1, 10, false), (2, 100, true), (3, 140, true)]).get_recommendations := by
  refine ⟨?_, ?_, by norm_num, ?_⟩
  · norm_num [genuineDeltas, significantImprovement, ConvergenceDetector.update,
      ConvergenceDetector.init]
  · norm_num [runUpdates, ConvergenceDetector.update, ConvergenceDetector.init]
  · norm_num [runUpdates, ConvergenceDetector.update, ConvergenceDetector.init,
      ConvergenceDetector.get_recommendations, ConvergenceDetector.improvements,
      ConvergenceDetector.calculate_plateau_stats,
      ConvergenceDetector.calculate_wasted_iterations]

theorem diminishing_mem_iff (s : ConvergenceDetector) (i0 im2 im1 : IterationRecord)
    (h3 : 3 ≤ s.iteration_history.length) (h2 : 2 ≤ s.improvements.length)
    (hh : s.improvements.head? = some i0)
    (hm2 : s.improvements.dropLast.getLast? = some im2)
    (hm1 : s.improvements.getLast? = some im1) :
    Recommendation.diminishingReturns ∈ s.get_recommendations ↔
      im1.score - im2.best_score < (i0.score - (i0.best_score - i0.score)) / 2 := by
  unfold ConvergenceDetector.get_recommendations
  rw [if_pos h3, if_pos h2]
  simp only [hh, hm2, hm1]
  simp only [List.mem_append]
  constructor
  · rintro ((h | h) | h)
    · exfalso
      revert h
      split_ifs <;> simp
    · exfalso
      revert h
      split_ifs <;> simp
    · revert h
      split_ifs with hc
      · exact fun _ => hc
      · simp
  · intro h
    refine Or.inr ?_
    split_ifs
    simp

theorem getLast?_cons_of_ne_nil {α : Type} (a : α) {l : List α} (h : l ≠ []) :
    (a :: l).getLast? = l.getLast? := by
  cases l with
  | nil => exact absurd rfl h
  | cons b t => exact List.getLast?_cons_cons

theorem dropLast_getLast?_cons {α : Type} (a : α) {l : List α} (h : 2 ≤ l.length) :
    (a :: l).dropLast.getLast? = l.dropLast.getLast? := by
  cases l with
  | nil => simp at h
  | cons b t =>
    cases t with
    | nil => simp at h
    | cons c t2 =>
      rw [List.dropLast_cons₂, List.dropLast_cons₂, List.getLast?_cons_cons,
        ← List.dropLast_cons₂]

theorem scoresFromDeltas_length (ds : List ℚ) : ∀ b, (scoresFromDeltas b ds).length = ds.length := by
  induction ds with
  | nil => intro b; rfl
  | cons d ds ih => intro b; simp [scoresFromDeltas, ih]

theorem scoresFromDeltas_last_diff :
    ∀ (ds : List ℚ) (b x y : ℚ), 2 ≤ ds.length →
      (scoresFromDeltas b ds).getLast? = some x →
      (scoresFromDeltas b ds).dropLast.getLast? = some y →
      ds.getLast? = some (x - y) := by
  intro ds
  induction ds with
  | nil => intro b x y h _ _; simp at h
  | cons d ds ih =>
    intro b x y h hx hy
    cases ds with
    | nil => simp at h
    | cons d2 ds2 =>
      cases ds2 with
      | nil =>
        simp [scoresFromDeltas] at hx hy
        simp [List.getLast?]
        linarith
      | cons d3 ds3 =>
        have hlen : 2 ≤ (d2 :: d3 :: ds3).length := by simp
        have hne : scoresFromDeltas (b + d) (d2 :: d3 :: ds3) ≠ [] := by
          intro hemp
          have hl := scoresFromDeltas_length (d2 :: d3 :: ds3) (b + d)
          rw [hemp] at hl
          simp at hl
        have hS2 : 2 ≤ (scoresFromDeltas (b + d) (d2 :: d3 :: ds3)).length := by
          rw [scoresFromDeltas_length]
          simp
        rw [scoresFromDeltas] at hx hy
        rw [getLast?_cons_of_ne_nil _ hne] at hx
        rw [dropLast_getLast?_cons _ hS2] at hy
        rw [List.getLast?_cons_cons]
        exact ih (b + d) x y hlen hx hy

theorem improvements_update (s : ConvergenceDetector) (it : ℤ) (sc : ℚ) (imp : Bool) :
    (s.update it sc imp).improvements =
      s.improvements ++
        (if imp = true ∧ 0 < sc then
          [{ iteration := it, score := sc, improved := imp,
             best_score := max s.best_score sc }]
        else []) := by
  unfold ConvergenceDetector.improvements
  rw [update_iteration_history, List.filter_append]
  congr 1
  cases imp <;> by_cases hsc : (0 : ℚ) < sc <;> simp [hsc]

theorem runUpdatesGenuine_spec :
    ∀ (steps : List (ℤ × ℚ)) (s : ConvergenceDetector), DetInv s →
      DetInv (runUpdatesGenuine s steps) ∧
      (runUpdatesGenuine s steps).improvements.map (fun r => r.score) =
        s.improvements.map (fun r => r.score) ++
          scoresFromDeltas s.best_score (genuineDeltasP s steps) ∧
      (runUpdatesGenuine s steps).iteration_history.length =
        s.iteration_history.length + steps.length := by
  intro steps
  induction steps with
  | nil =>
    intro s hInv
    refine ⟨hInv, ?_, ?_⟩
    · simp [runUpdatesGenuine, genuineDeltasP, scoresFromDeltas]
    · simp [runUpdatesGenuine]
  | cons p rest ih =>
    rcases p with ⟨it, sc⟩
    intro s hInv
    rw [runUpdatesGenuine, genuineDeltasP]
    by_cases hg : significantImprovement s sc
    · have hd : decide (significantImprovement s sc) = true := decide_eq_true hg
      have hsc : (0 : ℚ) < sc := lt_of_le_of_lt hInv.1 hg.1
      have hbest : (s.update it sc (decide (significantImprovement s sc))).best_score = sc := by
        rw [update_best_score, if_pos hg]
      have hmax : max s.best_score sc = sc := max_eq_right (le_of_lt hg.1)
      have himps : (s.update it sc (decide (significantImprovement s sc))).improvements =
          s.improvements ++
            [{ iteration := it, score := sc, improved := decide (significantImprovement s sc),
               best_score := max s.best_score sc }] := by
        rw [improvements_update, if_pos ⟨hd, hsc⟩]
      have hInv2 : DetInv (s.update it sc (decide (significantImprovement s sc))) := by
        refine ⟨by rw [hbest]; exact le_of_lt hsc, ?_, ?_⟩
        · intro r hr
          rw [himps] at hr
          rcases List.mem_append.mp hr with hr | hr
          · exact hInv.2.1 r hr
          · rcases List.mem_singleton.mp hr with rfl
            simp [hmax]
        · rw [himps, List.getLast?_concat, hbest, hmax]
      rcases ih _ hInv2 with ⟨hI, hmap, hlen⟩
      refine ⟨hI, ?_, ?_⟩
      · rw [if_pos hg, hmap, himps, hbest]
        rw [List.singleton_append, scoresFromDeltas]
        rw [show s.best_score + (sc - s.best_score) = sc by ring]
        simp [hmax]
      · rw [hlen, update_iteration_history]
        simp
        omega
    · have hd : decide (significantImprovement s sc) = false := decide_eq_false hg
      have hbest : (s.update it sc (decide (significantImprovement s sc))).best_score =
          s.best_score := by
        rw [update_best_score, if_neg hg]
      have himps : (s.update it sc (decide (significantImprovement s sc))).improvements =
          s.improvements := by
        rw [improvements_update, if_neg]
        · simp
        · rw [hd]
          simp
      have hInv2 : DetInv (s.update it sc (decide (significantImprovement s sc))) := by
        refine ⟨by rw [hbest]; exact hInv.1, ?_, ?_⟩
        · intro r hr
          rw [himps] at hr
          exact hInv.2.1 r hr
        · rw [himps, hbest]
          exact hInv.2.2
      rcases ih _ hInv2 with ⟨hI, hmap, hlen⟩
      refine ⟨hI, ?_, ?_⟩
      · rw [if_neg hg, hmap, himps, hbest]
        simp
      · rw [hlen, update_iteration_history]
        simp
        omega

/-- C9 amended: over runs from a fresh tracker in which every update's
`improved` flag equals the tracker's own genuine-improvement predicate at the
pre-call state, with at least three iterations and at least two genuine
improvements, `get_recommendations` includes the diminishing-returns
recommendation exactly when the most recent genuine improvement's score delta
is less than half the first genuine improvement's score delta. (With
inconsistent caller flags the code instead reads the flagged records and
compares against half the first flagged record's raw score, cf. the
counterexample.) -/
theorem C9_diminishing_returns_consistent (cfg : ConvergenceConfig)
    (steps : List (ℤ × ℚ)) (df dl : ℚ)
    (h3 : 3 ≤ steps.length)
    (h2 : 2 ≤ (genuineDeltasP (ConvergenceDetector.init (some cfg)) steps).length)
    (hdf : (genuineDeltasP (ConvergenceDetector.init (some cfg)) steps).head? = some df)
    (hdl : (genuineDeltasP (ConvergenceDetector.init (some cfg)) steps).getLast? = some dl) :
    (Recommendation.diminishingReturns ∈
        (runUpdatesGenuine (ConvergenceDetector.init (some cfg)) steps).get_recommendations ↔
      dl < df / 2) := by
  have hInv0 : DetInv (ConvergenceDetector.init (some cfg)) := by
    refine ⟨le_refl 0, ?_, ?_⟩
    · intro r hr
      simp [ConvergenceDetector.improvements, ConvergenceDetector.init] at hr
    · exact rfl
  obtain ⟨hInv, hmap, hlen⟩ :=
    runUpdatesGenuine_spec steps (ConvergenceDetector.init (some cfg)) hInv0
  have hmap' : (runUpdatesGenuine (ConvergenceDetector.init (some cfg)) steps).improvements.map
      (fun r => r.score) =
      scoresFromDeltas 0 (genuineDeltasP (ConvergenceDetector.init (some cfg)) steps) := by
    rw [hmap]
    simp [ConvergenceDetector.improvements, ConvergenceDetector.init]
  have himpslen : (runUpdatesGenuine (ConvergenceDetector.init (some cfg)) steps).improvements.length =
      (genuineDeltasP (ConvergenceDetector.init (some cfg)) steps).length := by
    have hml := congrArg List.length hmap'
    rw [List.length_map, scoresFromDeltas_length] at hml
    exact hml
  have h2' : 2 ≤ (runUpdatesGenuine (ConvergenceDetector.init (some cfg)) steps).improvements.length := by
    rw [himpslen]
    exact h2
  have h3' : 3 ≤ (runUpdatesGenuine (ConvergenceDetector.init (some cfg)) steps).iteration_history.length := by
    rw [hlen]
    simpa [ConvergenceDetector.init] using h3
  -- names for the three records the code indexes
  have hne : (runUpdatesGenuine (ConvergenceDetector.init (some cfg)) steps).improvements ≠ [] := by
    intro hemp
    rw [hemp] at h2'
    simp at h2'
  obtain ⟨i0, hi0⟩ : ∃ i0, (runUpdatesGenuine (ConvergenceDetector.init (some cfg)) steps).improvements.head? = some i0 := by
    cases hh : (runUpdatesGenuine (ConvergenceDetector.init (some cfg)) steps).improvements.head? with
    | none => exact absurd (List.head?_eq_none_iff.mp hh) hne
    | some a => exact ⟨a, rfl⟩
  obtain ⟨im1, him1⟩ : ∃ im1, (runUpdatesGenuine (ConvergenceDetector.init (some cfg)) steps).improvements.getLast? = some im1 := by
    cases hh : (runUpdatesGenuine (ConvergenceDetector.init (some cfg)) steps).improvements.getLast? with
    | none => exact absurd (List.getLast?_eq_none_iff.mp hh) hne
    | some a => exact ⟨a, rfl⟩
  have hdsne : (runUpdatesGenuine (ConvergenceDetector.init (some cfg)) steps).improvements.dropLast ≠ [] := by
    intro hemp
    have := congrArg List.length hemp
    rw [List.length_dropLast] at this
    simp at this
    omega
  obtain ⟨im2, him2⟩ : ∃ im2, (runUpdatesGenuine (ConvergenceDetector.init (some cfg)) steps).improvements.dropLast.getLast? = some im2 := by
    cases hh : (runUpdatesGenuine (ConvergenceDetector.init (some cfg)) steps).improvements.dropLast.getLast? with
    | none => exact absurd (List.getLast?_eq_none_iff.mp hh) hdsne
    | some a => exact ⟨a, rfl⟩
  have hmem_iff := diminishing_mem_iff _ i0 im2 im1 h3' h2' hi0 him2 him1
  -- the invariant applied to the indexed records
  have hi0mem : i0 ∈ (runUpdatesGenuine (ConvergenceDetector.init (some cfg)) steps).improvements :=
    List.mem_of_mem_head? (by rw [hi0]; rfl)
  have him2mem : im2 ∈ (runUpdatesGenuine (ConvergenceDetector.init (some cfg)) steps).improvements :=
    List.dropLast_subset _ (List.mem_of_mem_getLast? (by rw [him2]; rfl))
  have hi0best : i0.best_score = i0.score := hInv.2.1 i0 hi0mem
  have him2best : im2.best_score = im2.score := hInv.2.1 im2 him2mem
  -- the first genuine delta is the first improvement's score
  have hi0score : i0.score = df := by
    cases hds : genuineDeltasP (ConvergenceDetector.init (some cfg)) steps with
    | nil =>
      rw [hds] at h2
      simp at h2
    | cons d rest =>
      rw [hds] at hdf
      have hd : d = df := by
        simpa using hdf
      have hh := congrArg List.head? hmap'
      rw [List.head?_map, hi0, hds, scoresFromDeltas] at hh
      simp at hh
      rw [hh, hd]
  -- the last genuine delta is the difference of the last two improvement scores
  have hdl' : dl = im1.score - im2.score := by
    have hx : (scoresFromDeltas 0 (genuineDeltasP (ConvergenceDetector.init (some cfg)) steps)).getLast? =
        some im1.score := by
      rw [← hmap', List.getLast?_map, him1]
      rfl
    have hy : (scoresFromDeltas 0 (genuineDeltasP (ConvergenceDetector.init (some cfg)) steps)).dropLast.getLast? =
        some im2.score := by
      rw [← hmap', ← List.map_dropLast, List.getLast?_map, him2]
      rfl
    have := scoresFromDeltas_last_diff _ 0 im1.score im2.score h2 hx hy
    rw [hdl] at this
    exact Option.some.inj this
  rw [hmem_iff, him2best, hi0best, ← hdl']
  rw [show i0.score - (i0.score - i0.score) = i0.score from by ring, hi0score]

/-- C9 witness: for the consistent run (1,10), (2,16), (3,15) — genuine
deltas 10 then 6 — the recent delta 6 is not below half the first delta 10,
and indeed no diminishing-returns recommendation is emitted. -/
theorem C9_diminishing_returns_consistent_witness :
    Recommendation.diminishingReturns ∉
      (runUpdatesGenuine (ConvergenceDetector.init (some {}))
        [(1, 10), (2, 16), (3, 15)]).get_recommendations := by
  intro hmem
  have h := (C9_diminishing_returns_consistent {} [(1, 10), (2, 16), (3, 15)] 10 6
      (by norm_num)
      (by norm_num [genuineDeltasP, significantImprovement, ConvergenceDetector.update,
        ConvergenceDetector.init])
      (by norm_num [genuineDeltasP, significantImprovement, ConvergenceDetector.update,
        ConvergenceDetector.init])
      (by norm_num [genuineDeltasP, significantImprovement, ConvergenceDetector.update,
        ConvergenceDetector.init])).mp hmem
  norm_num at h
